import Mathlib

/-!
Verification of the adaptive scoring and classification engine of the
raigra repository (src/app/scoring.py, src/app/questions.py, src/app/app.py,
src/app/pdf_report.py).

Python floats are modelled as exact rationals (ℚ); Python dicts keyed by
category names are modelled as association lists `List (String × ℚ)` built
in the same key order as the code builds them, with `lookupD` playing the
role of `dict.get(key, default)`.  The Python `needle in hay` substring test
is modelled by `strIn`, and `str.lower()` by `toLowerStr`.
-/

/-! ## String utilities (model of Python string primitives) -/

/-- Model of the Python substring test on lists of characters:
`listContainsSub n h = true` iff `n` occurs contiguously inside `h`. -/
def listContainsSub (needle : List Char) : List Char → Bool
  | [] => needle.isEmpty
  | c :: rest => needle.isPrefixOf (c :: rest) || listContainsSub needle rest

/-- Model of Python `needle in hay` for strings. -/
def strIn (needle hay : String) : Bool :=
  listContainsSub needle.data hay.data

/-- Model of Python `s.lower()` (character-wise lowercasing). -/
def toLowerStr (s : String) : String :=
  String.mk (s.data.map Char.toLower)

/-- Model of Python `any(k in s for k in keys)`. -/
def anyIn (keys : List String) (s : String) : Bool :=
  keys.any (fun k => strIn k s)

/-- Lookup in an association list with a default, modelling Python
`d.get(k, default)` (and plain `d[k]` where the key is known present). -/
def lookupD (l : List (String × ℚ)) (k : String) (d : ℚ) : ℚ :=
  match l.find? (fun p => p.1 == k) with
  | some p => p.2
  | none => d

/-! ## Question catalog (src/app/questions.py) -/

/-- Embedding of the `Question` dataclass of src/app/questions.py. -/
structure Question where
  id : String
  text : String
  category : String
  qtype : String
deriving DecidableEq

/-- The five fixed categories (`CATEGORIES` in src/app/questions.py). -/
def CATEGORIES : List String :=
  [ "Governance & Policy",
    "Data Privacy & Protection",
    "Technical Controls & Monitoring",
    "Ethics & Societal Impact",
    "Organisational Readiness & Capability" ]

/-- Embedding of `LIKERT_OPTIONS` of src/app/questions.py: graded answers take values 1..5. -/
def LIKERT_OPTIONS : List (String × ℚ) :=
  [ ("Not at all", 1), ("Limited", 2), ("Developing", 3),
    ("Established", 4), ("Best practice", 5) ]

/-- Embedding of `YESNO_OPTIONS` of src/app/questions.py: boolean answers take values 0 and 1. -/
def YESNO_OPTIONS : List (String × ℚ) :=
  [ ("No", 0), ("Yes", 1) ]

/-- The full question catalog `QUESTIONS` of src/app/questions.py
(ids, categories and answer kinds exactly as in the source). -/
def QUESTIONS : List Question :=
  [ ⟨"gov_policy",
     "Do you have a documented AI governance policy approved by senior leadership?",
     "Governance & Policy", "yesno"⟩,
    ⟨"gov_owner",
     "Is there a named accountable owner for AI systems and their outcomes?",
     "Governance & Policy", "yesno"⟩,
    ⟨"gov_vendor",
     "To what extent are third-party AI vendors assessed for governance and risk?",
     "Governance & Policy", "likert"⟩,
    ⟨"dp_minimisation",
     "To what extent is data minimisation applied to AI training and inference data?",
     "Data Privacy & Protection", "likert"⟩,
    ⟨"dp_dpia",
     "Are Data Protection Impact Assessments (DPIAs) conducted for AI use cases involving personal data?",
     "Data Privacy & Protection", "yesno"⟩,
    ⟨"tech_versioning",
     "How mature is your model and dataset version control (e.g. registries, dataset tracking)?",
     "Technical Controls & Monitoring", "likert"⟩,
    ⟨"tech_monitoring",
     "How systematically do you monitor AI systems in production for drift, failures, or misuse?",
     "Technical Controls & Monitoring", "likert"⟩,
    ⟨"eth_impact",
     "To what extent are ethical impact assessments integrated into AI project approval?",
     "Ethics & Societal Impact", "likert"⟩,
    ⟨"eth_stakeholders",
     "How regularly are affected stakeholders consulted for high-impact AI systems?",
     "Ethics & Societal Impact", "likert"⟩,
    ⟨"org_training",
     "How widely is responsible AI training provided to staff involved in AI development or procurement?",
     "Organisational Readiness & Capability", "likert"⟩,
    ⟨"org_roles",
     "Are roles and responsibilities clearly defined across the AI lifecycle (e.g. product owner, data steward)?",
     "Organisational Readiness & Capability", "yesno"⟩ ]

/-! ## Band classifier (src/app/scoring.py, `classify_band`) -/

/-- Embedding of `classify_band` (src/app/scoring.py lines 14-26):
maps a numeric overall score to a (label, description) pair using
inclusive lower bounds. -/
def classify_band (overall_score : ℚ) : String × String :=
  if overall_score ≥ 80 then
    ("AI Ready", "Strong governance and controls; low regulatory risk.")
  else if overall_score ≥ 60 then
    ("Near Ready", "Solid foundation with clear areas to strengthen.")
  else if overall_score ≥ 40 then
    ("Emerging", "Foundational elements in place but significant weaknesses.")
  else
    ("High Risk", "Limited governance; urgent remediation required.")

/-! ## Weight resolver (src/app/scoring.py, `get_category_weights`) -/

/-- Keyword test for the public-sector group (src/app/scoring.py line 58),
applied to the lowercased organisation type. -/
def pubFlag (t : String) : Bool :=
  anyIn ["public", "government", "gov", "ngo", "non-profit", "charity"] t

/-- Keyword test for the startup group (line 65). -/
def suFlag (t : String) : Bool :=
  anyIn ["startup", "scaleup", "scale-up", "high growth"] t

/-- Keyword test for the healthcare group (line 74), applied to the
lowercased sector. -/
def heFlag (ind : String) : Bool :=
  strIn "health" ind || strIn "life science" ind || strIn "pharma" ind

/-- Keyword test for the financial-services group (line 81). -/
def fiFlag (ind : String) : Bool :=
  strIn "financ" ind || strIn "bank" ind || strIn "insur" ind || strIn "asset" ind

/-- Keyword test for the retail group (line 88). -/
def reFlag (ind : String) : Bool :=
  strIn "retail" ind || strIn "commerce" ind || strIn "e-commerce" ind || strIn "ecommerce" ind

/-- Keyword test for the education group (line 95). -/
def edFlag (ind : String) : Bool :=
  strIn "educat" ind || strIn "school" ind || strIn "university" ind || strIn "college" ind

/-- Keyword test for the technology group (line 103). -/
def teFlag (ind : String) : Bool :=
  strIn "tech" ind || strIn "software" ind || strIn "ai" ind || strIn "digital" ind

/-- The weight dict after the base assignment (lines 44-50) and all seven
additive adjustment blocks (lines 58-107), as a function of which keyword
group matched.  Each category entry is its base weight plus the signed
deltas of the blocks that fired (addition commutes, so accumulating in
block order as the code does gives the same totals). -/
def rawWeights (pub su he fi re ed te : Bool) : List (String × ℚ) :=
  [ ("Governance & Policy",
      0.30 + (if pub then 0.05 else 0) + (if su then -0.03 else 0)
           + (if fi then 0.05 else 0) + (if re then -0.05 else 0)
           + (if ed then 0.04 else 0) + (if te then 0.03 else 0)),
    ("Data Privacy & Protection",
      0.25 + (if pub then 0.05 else 0) + (if he then 0.06 else 0)
           + (if fi then 0.05 else 0) + (if ed then -0.05 else 0)
           + (if te then -0.05 else 0)),
    ("Technical Controls & Monitoring",
      0.20 + (if pub then -0.05 else 0) + (if su then 0.05 else 0)
           + (if he then -0.05 else 0) + (if fi then -0.05 else 0)
           + (if re then 0.06 else 0) + (if ed then -0.05 else 0)
           + (if te then 0.05 else 0)),
    ("Ethics & Societal Impact",
      0.15 + (if su then -0.02 else 0) + (if he then 0.04 else 0)
           + (if fi then -0.05 else 0) + (if re then -0.05 else 0)
           + (if ed then 0.04 else 0) + (if te then -0.03 else 0)),
    ("Organisational Readiness & Capability",
      0.10 + (if pub then -0.05 else 0) + (if su then 0.05 else 0)
           + (if he then -0.05 else 0) + (if re then 0.04 else 0)
           + (if ed then 0.02 else 0)) ]

/-- The adjusted (pre-renormalization) weight dict for the given inputs:
lines 44-107 of src/app/scoring.py, before the final normalisation block. -/
def adjustedWeights (org_type industry : Option String) : List (String × ℚ) :=
  let t := toLowerStr (org_type.getD "")
  let ind := toLowerStr (industry.getD "")
  rawWeights (pubFlag t) (suFlag t) (heFlag ind) (fiFlag ind) (reFlag ind)
    (edFlag ind) (teFlag ind)

/-- The final normalisation block of `get_category_weights`
(src/app/scoring.py lines 109-116): divide every weight by the total, or
fall back to an equal split over `CATEGORIES` when the total is ≤ 0. -/
def normalise_weights (ws : List (String × ℚ)) : List (String × ℚ) :=
  let total := (ws.map Prod.snd).sum
  if total ≤ 0 then
    CATEGORIES.map (fun c => (c, 1 / (CATEGORIES.length : ℚ)))
  else
    ws.map (fun p => (p.1, p.2 / total))

/-- Embedding of `get_category_weights` (src/app/scoring.py lines 32-116). -/
def get_category_weights (org_type industry : Option String) : List (String × ℚ) :=
  normalise_weights (adjustedWeights org_type industry)

/-! ## Scoring pipeline (src/app/scoring.py, `compute_scores`) -/

/-- Per-category raw sum accumulated by the loop at lines 133-136 of
src/app/scoring.py, read off for one fixed category over an arbitrary
question list: each question of that category whose id is present in the
responses adds its answer value to the category total. -/
def catTotalOver (qs : List Question) (responses : String → Option ℚ) (cat : String) : ℚ :=
  match qs with
  | [] => 0
  | q :: rest =>
      (if q.category == cat && (responses q.id).isSome then (responses q.id).getD 0 else 0) +
        catTotalOver rest responses cat

/-- Per-category answered-question count accumulated by the same loop. -/
def catCountOver (qs : List Question) (responses : String → Option ℚ) (cat : String) : ℕ :=
  match qs with
  | [] => 0
  | q :: rest =>
      (if q.category == cat && (responses q.id).isSome then 1 else 0) +
        catCountOver rest responses cat

/-- Value of `category_totals[cat]` after the aggregation loop of `compute_scores`. -/
def category_total (responses : String → Option ℚ) (cat : String) : ℚ :=
  catTotalOver QUESTIONS responses cat

/-- Value of `category_counts[cat]` after the aggregation loop of `compute_scores`. -/
def category_count (responses : String → Option ℚ) (cat : String) : ℕ :=
  catCountOver QUESTIONS responses cat

/-- The per-category score of lines 139-146 of src/app/scoring.py:
`(avg / 4.0) * 100.0` when the category has answered questions, else 0. -/
def category_score (responses : String → Option ℚ) (cat : String) : ℚ :=
  if category_count responses cat > 0 then
    (category_total responses cat / (category_count responses cat : ℚ)) / 4 * 100
  else
    0

/-- The weighted-overall loop of lines 151-154 of src/app/scoring.py, for an
arbitrary assignment of scores to categories: `overall += score * weights.get(cat, 0.0)`
over the five categories. -/
def overall_of (score : String → ℚ) (weights : List (String × ℚ)) : ℚ :=
  (CATEGORIES.map (fun c => score c * lookupD weights c 0)).sum

/-- Result record of `compute_scores`: the `(overall, category_scores, band)`
tuple it returns. -/
structure ScoreResult where
  overall : ℚ
  category_scores : List (String × ℚ)
  band : String × String
deriving DecidableEq

/-- Embedding of `compute_scores` (src/app/scoring.py lines 118-157). -/
def compute_scores (responses : String → Option ℚ)
    (org_type industry : Option String) : ScoreResult :=
  let category_scores := CATEGORIES.map (fun c => (c, category_score responses c))
  let weights := get_category_weights org_type industry
  let overall := overall_of (fun c => lookupD category_scores c 0) weights
  ⟨overall, category_scores, classify_band overall⟩

/-! ## Recommendation generator (src/app/scoring.py, `generate_recommendations`) -/

/-- Embedding of `generate_recommendations` (src/app/scoring.py lines
159-170): one fixed recommendation string per input category, chosen by
that category score alone. -/
def generate_recommendations (category_scores : List (String × ℚ)) : List (String × String) :=
  category_scores.map (fun p =>
    (p.1,
      if p.2 ≥ 80 then
        "Maintain current practices and document them clearly for internal and external audits."
      else if p.2 ≥ 60 then
        "Strengthen governance and monitoring processes to move from \x27near ready\x27 to \x27ready\x27."
      else if p.2 ≥ 40 then
        "Prioritise building basic policies, controls, and clear ownership in this area."
      else
        "Treat this as a high-risk area and establish minimum compliant processes in the next 3–6 months."))

/-! ## Trend engine (src/app/app.py lines 631-711 and
src/app/pdf_report.py lines 191-257) -/

/-- One row of docs/assessments.csv as read back by the history blocks of
`main` and `build_pdf_report` (src/app/app.py lines 56-98 write it):
timestamp, overall score and the flattened per-category columns. -/
structure HistoryRecord where
  timestamp : String
  overall : ℚ
  cats : List (String × ℚ)
deriving DecidableEq

/-- The value of a category column in a history record when the column is
present there with a non-null value (`latest.get(col_name, None)` followed
by the `pd.notna` test in src/app/pdf_report.py lines 248-250). -/
def colValue (r : HistoryRecord) (c : String) : Option ℚ :=
  match r.cats.find? (fun p => p.1 == c) with
  | some p => some p.2
  | none => none

/-- The column name a category is stored under in docs/assessments.csv:
`"cat_" + cat.replace(" ", "_").lower()` (src/app/app.py line 88 when
writing, src/app/pdf_report.py line 245 when reading). -/
def catCol (cat : String) : String :=
  "cat_" ++ toLowerStr (String.mk (cat.data.map (fun c => if c = ' ' then '_' else c)))

/-- Output of the change-since-last-assessment computation: the overall
delta of src/app/app.py lines 650-666 and src/app/pdf_report.py lines
223-226, and the per-category latest-minus-previous deltas of the category
trend table of src/app/pdf_report.py lines 238-257. -/
structure TrendOutput where
  overallDelta : ℚ
  categoryDeltas : List (String × ℚ)
deriving DecidableEq

/-- Embedding of the trend computation on a chronologically ordered
history (the callers sort by timestamp before this point).  With at least
two records the code takes the last two rows and computes
`delta = latest - previous` on the `overall_score` column (app.py lines
650-666 and pdf_report.py lines 223-226), and, for each of the five fixed
categories whose column is present with a non-null value in both of those
rows, `delta_cat = latest_val - prev_val` (pdf_report.py lines 238-257,
iterating its `CAT_LIST`, which lists the same five categories as
`CATEGORIES`).  With fewer than two records both blocks are skipped and
there is no trend output. -/
def computeTrend (history : List HistoryRecord) : Option TrendOutput :=
  match history.reverse with
  | latest :: prev :: _ =>
      some ⟨latest.overall - prev.overall,
            CATEGORIES.filterMap (fun cat =>
              match colValue latest (catCol cat), colValue prev (catCol cat) with
              | some lv, some pv => some (cat, lv - pv)
              | _, _ => none)⟩
  | _ => none

/-! ## Helper lemmas: weight resolver arithmetic -/

theorem rawWeights_sum (pub su he fi re ed te : Bool) :
    ((rawWeights pub su he fi re ed te).map Prod.snd).sum = if su then 21/20 else 1 := by
  simp only [rawWeights, List.map_cons, List.map_nil, List.sum_cons, List.sum_nil]
  split_ifs <;> norm_num

theorem rawWeights_nonneg (pub su he fi re ed te : Bool) :
    ∀ p ∈ rawWeights pub su he fi re ed te, 0 ≤ p.2 := by
  intro p hp
  fin_cases hp <;> simp only [] <;> split_ifs <;> norm_num

theorem adjustedWeights_sum (ot ind : Option String) :
    ((adjustedWeights ot ind).map Prod.snd).sum =
      if suFlag (toLowerStr (ot.getD "")) then 21/20 else 1 := by
  simp only [adjustedWeights]
  exact rawWeights_sum _ _ _ _ _ _ _

theorem adjustedWeights_sum_pos (ot ind : Option String) :
    0 < ((adjustedWeights ot ind).map Prod.snd).sum := by
  rw [adjustedWeights_sum]
  split_ifs <;> norm_num

theorem adjustedWeights_nonneg (ot ind : Option String) :
    ∀ p ∈ adjustedWeights ot ind, 0 ≤ p.2 := by
  simp only [adjustedWeights]
  exact rawWeights_nonneg _ _ _ _ _ _ _

theorem lookupD_nonneg (ws : List (String × ℚ)) (h : ∀ p ∈ ws, 0 ≤ p.2) (c : String) :
    0 ≤ lookupD ws c 0 := by
  unfold lookupD
  cases hf : ws.find? (fun p => p.1 == c) with
  | none => exact le_refl 0
  | some p => exact h p (List.mem_of_find?_eq_some hf)

theorem get_category_weights_eq_div (ot ind : Option String) :
    get_category_weights ot ind =
      (adjustedWeights ot ind).map
        (fun p => (p.1, p.2 / ((adjustedWeights ot ind).map Prod.snd).sum)) := by
  simp only [get_category_weights, normalise_weights]
  rw [if_neg (not_le.mpr (adjustedWeights_sum_pos ot ind))]

theorem sum_map_snd_div (ws : List (String × ℚ)) (S : ℚ) :
    ((ws.map (fun p => (p.1, p.2 / S))).map Prod.snd).sum = ((ws.map Prod.snd).sum) / S := by
  induction ws with
  | nil => simp
  | cons a l ih =>
      simp only [List.map_cons, List.sum_cons, add_div, ← ih]

theorem lookupD_map_div (ws : List (String × ℚ)) (S : ℚ) (k : String) :
    lookupD (ws.map (fun p => (p.1, p.2 / S))) k 0 = lookupD ws k 0 / S := by
  induction ws with
  | nil => simp [lookupD]
  | cons a l ih =>
      by_cases hk : a.1 == k
      · simp [lookupD, List.find?, hk]
      · simpa [lookupD, List.find?, hk] using ih

theorem get_category_weights_sum (ot ind : Option String) :
    ((get_category_weights ot ind).map Prod.snd).sum = 1 := by
  rw [get_category_weights_eq_div, sum_map_snd_div, adjustedWeights_sum]
  split_ifs <;> norm_num

theorem adjustedWeights_keys (ot ind : Option String) :
    (adjustedWeights ot ind).map Prod.fst = CATEGORIES := by
  simp [adjustedWeights, rawWeights, CATEGORIES]

theorem get_category_weights_keys (ot ind : Option String) :
    (get_category_weights ot ind).map Prod.fst = CATEGORIES := by
  rw [get_category_weights_eq_div, ← adjustedWeights_keys ot ind, List.map_map]
  rfl

theorem lookupD_rawWeights_eth (pub su he fi re ed te : Bool) :
    lookupD (rawWeights pub su he fi re ed te) "Ethics & Societal Impact" 0 =
      0.15 + (if su then -0.02 else 0) + (if he then 0.04 else 0)
           + (if fi then -0.05 else 0) + (if re then -0.05 else 0)
           + (if ed then 0.04 else 0) + (if te then -0.03 else 0) := by
  simp [rawWeights, lookupD]

/-- Keyword-group evaluation on the concrete pair
`org_type = "Startup"`, `industry = "finance retail"`: the startup,
financial-services, retail and technology groups fire (the technology group
via the substring "ai" of "retail"), no other group does. -/
theorem adjustedWeights_startup_finance_retail :
    adjustedWeights (some "Startup") (some "finance retail") =
      rawWeights false true false true true false true := by
  have h1 : pubFlag (toLowerStr ((some "Startup").getD "")) = false := by decide
  have h2 : suFlag (toLowerStr ((some "Startup").getD "")) = true := by decide
  have h3 : heFlag (toLowerStr ((some "finance retail").getD "")) = false := by decide
  have h4 : fiFlag (toLowerStr ((some "finance retail").getD "")) = true := by decide
  have h5 : reFlag (toLowerStr ((some "finance retail").getD "")) = true := by decide
  have h6 : edFlag (toLowerStr ((some "finance retail").getD "")) = false := by decide
  have h7 : teFlag (toLowerStr ((some "finance retail").getD "")) = true := by decide
  simp only [adjustedWeights, h1, h2, h3, h4, h5, h6, h7]

theorem ethics_weight_zero_at_startup_finance_retail :
    lookupD (adjustedWeights (some "Startup") (some "finance retail"))
      "Ethics & Societal Impact" 0 = 0 := by
  rw [adjustedWeights_startup_finance_retail, lookupD_rawWeights_eth]
  norm_num

theorem normalise_weights_fallback (ws : List (String × ℚ))
    (h : (ws.map Prod.snd).sum ≤ 0) :
    normalise_weights ws = CATEGORIES.map (fun c => (c, 1/5)) := by
  simp only [normalise_weights, if_pos h]
  norm_num [CATEGORIES]

/-! ## Claim theorems: weight resolver -/

/-- C3: for every pair of input strings the weight vector returned by
`get_category_weights` has exactly the five fixed categories as keys and
its values sum to 1 (hence to 1.0 within 1e-9); and whenever the
pre-normalization sum of the weights is zero or negative, the
normalisation step returns an equal 1/5 split per category instead.  The
embedding is a total function, so no input can raise. -/
theorem get_category_weights_invariant :
    (∀ ot ind : Option String,
      (get_category_weights ot ind).map Prod.fst = CATEGORIES ∧
      ((get_category_weights ot ind).map Prod.snd).sum = 1 ∧
      |((get_category_weights ot ind).map Prod.snd).sum - 1| ≤ 1 / 1000000000) ∧
    (∀ ws : List (String × ℚ), (ws.map Prod.snd).sum ≤ 0 →
      normalise_weights ws = CATEGORIES.map (fun c => (c, 1/5))) := by
  constructor
  · intro ot ind
    refine ⟨get_category_weights_keys ot ind, get_category_weights_sum ot ind, ?_⟩
    rw [get_category_weights_sum]
    norm_num
  · intro ws h
    exact normalise_weights_fallback ws h

/-- Witness for C3: the invariant instantiated at empty inputs, and the
fallback branch instantiated at a concrete weight list with sum -1 ≤ 0. -/
theorem get_category_weights_invariant_witness :
    ((get_category_weights none none).map Prod.fst = CATEGORIES ∧
      ((get_category_weights none none).map Prod.snd).sum = 1) ∧
    (([("x", (-1 : ℚ))].map Prod.snd).sum ≤ 0 ∧
      normalise_weights [("x", (-1 : ℚ))] = CATEGORIES.map (fun c => (c, 1/5))) := by
  have h : ([("x", (-1 : ℚ))].map Prod.snd).sum ≤ 0 := by norm_num
  exact ⟨⟨(get_category_weights_invariant.1 none none).1,
          (get_category_weights_invariant.1 none none).2.1⟩,
         h, get_category_weights_invariant.2 [("x", (-1 : ℚ))] h⟩

/-- C9: for every pair of inputs, every pre-renormalization weight is
non-negative, the pre-renormalization sum is exactly 1 or 1.05, the
function always takes the division branch (the equal-split fallback is
unreachable), and every weight in the returned vector is non-negative;
moreover the adjustments can drive a pre-renormalization weight to exactly
0 (Ethics & Societal Impact at org type "Startup", sector "finance
retail"). -/
theorem weight_resolver_nonneg_spec :
    (∀ (ot ind : Option String) (c : String),
      0 ≤ lookupD (adjustedWeights ot ind) c 0 ∧
      (((adjustedWeights ot ind).map Prod.snd).sum = 1 ∨
        ((adjustedWeights ot ind).map Prod.snd).sum = 21/20) ∧
      get_category_weights ot ind =
        (adjustedWeights ot ind).map
          (fun p => (p.1, p.2 / ((adjustedWeights ot ind).map Prod.snd).sum)) ∧
      0 ≤ lookupD (get_category_weights ot ind) c 0) ∧
    lookupD (adjustedWeights (some "Startup") (some "finance retail"))
      "Ethics & Societal Impact" 0 = 0 := by
  constructor
  · intro ot ind c
    have hnn := lookupD_nonneg _ (adjustedWeights_nonneg ot ind) c
    have hsum : (((adjustedWeights ot ind).map Prod.snd).sum = 1 ∨
        ((adjustedWeights ot ind).map Prod.snd).sum = 21/20) := by
      rw [adjustedWeights_sum]
      split_ifs with h
      · right; rfl
      · left; rfl
    refine ⟨hnn, hsum, get_category_weights_eq_div ot ind, ?_⟩
    rw [get_category_weights_eq_div, lookupD_map_div]
    exact div_nonneg hnn (le_of_lt (adjustedWeights_sum_pos ot ind))
  · exact ethics_weight_zero_at_startup_finance_retail

/-- C6 counterexample: the claim asserts that some organisation-type and
sector strings drive a pre-renormalization category weight strictly below
zero; in fact no input does, for any category key. -/
theorem no_negative_intermediate_weight :
    ¬ ∃ (ot ind : Option String) (c : String),
        lookupD (adjustedWeights ot ind) c 0 < 0 := by
  rintro ⟨ot, ind, c, hc⟩
  exact absurd (lookupD_nonneg _ (adjustedWeights_nonneg ot ind) c) (not_le.mpr hc)

/-- C6 (amended): the accumulated adjustment rules can drive the
pre-renormalization weight to exactly zero (Ethics & Societal Impact at
org type "Startup", sector "finance retail"), but never strictly below
zero for any input pair. -/
theorem adjusted_weights_floor_zero :
    (∀ (ot ind : Option String) (c : String),
      0 ≤ lookupD (adjustedWeights ot ind) c 0) ∧
    lookupD (adjustedWeights (some "Startup") (some "finance retail"))
      "Ethics & Societal Impact" 0 = 0 := by
  exact ⟨fun ot ind c => lookupD_nonneg _ (adjustedWeights_nonneg ot ind) c,
         ethics_weight_zero_at_startup_finance_retail⟩

/-! ## Claim theorems: band classifier -/

/-- C4: `classify_band` is total over ℚ and returns each (label,
description) pair exactly on its threshold interval — "AI Ready" iff
overall ≥ 80, "Near Ready" iff 60 ≤ overall < 80, "Emerging" iff
40 ≤ overall < 60, "High Risk" iff overall < 40 — including the boundary
scores 80, 79.999, 40, 39.999 and scores outside [0,100]. -/
theorem classify_band_spec :
    (∀ x : ℚ,
      (classify_band x =
        ("AI Ready", "Strong governance and controls; low regulatory risk.") ↔ 80 ≤ x) ∧
      (classify_band x =
        ("Near Ready", "Solid foundation with clear areas to strengthen.") ↔ 60 ≤ x ∧ x < 80) ∧
      (classify_band x =
        ("Emerging", "Foundational elements in place but significant weaknesses.") ↔ 40 ≤ x ∧ x < 60) ∧
      (classify_band x =
        ("High Risk", "Limited governance; urgent remediation required.") ↔ x < 40)) ∧
    (classify_band 80).1 = "AI Ready" ∧
    (classify_band (79.999 : ℚ)).1 = "Near Ready" ∧
    (classify_band 40).1 = "Emerging" ∧
    (classify_band (39.999 : ℚ)).1 = "High Risk" ∧
    (classify_band 150).1 = "AI Ready" ∧
    (classify_band (-5)).1 = "High Risk" := by
  refine ⟨fun x => ?_, ?_, ?_, ?_, ?_, ?_, ?_⟩
  · unfold classify_band
    split_ifs with h1 h2 h3 <;>
      refine ⟨?_, ?_, ?_, ?_⟩ <;>
        simp only [Prod.mk.injEq] <;>
          constructor <;>
            intro h <;>
              first
                | (exfalso; simp_all; linarith)
                | (constructor <;> linarith)
                | simp_all
  all_goals norm_num [classify_band]

/-! ## Claim theorems: recommendation generator -/

/-- The fixed "maintain and document" tier text of src/app/scoring.py line 163. -/
def maintainText : String :=
  "Maintain current practices and document them clearly for internal and external audits."

/-- The fixed "strengthen" tier text of line 165. -/
def strengthenText : String :=
  "Strengthen governance and monitoring processes to move from \x27near ready\x27 to \x27ready\x27."

/-- The fixed "prioritise basics" tier text of line 167. -/
def basicsText : String :=
  "Prioritise building basic policies, controls, and clear ownership in this area."

/-- The fixed "urgent remediation" tier text of line 169. -/
def urgentText : String :=
  "Treat this as a high-risk area and establish minimum compliant processes in the next 3–6 months."

/-- The tier selection of `generate_recommendations` as a function of the
score alone (the if-chain of lines 162-169). -/
def recTierText (score : ℚ) : String :=
  if score ≥ 80 then maintainText
  else if score ≥ 60 then strengthenText
  else if score ≥ 40 then basicsText
  else urgentText

/-- C8: `generate_recommendations` maps each input category, independently
per category, to the tier text chosen by the score of that category alone (no
use of the overall score, weights, or the category name), and the tier is
the "maintain" text iff score ≥ 80, the "strengthen" text iff
60 ≤ score < 80, the "prioritise basics" text iff 40 ≤ score < 60, and the
"urgent remediation" text iff score < 40. -/
theorem generate_recommendations_spec :
    (∀ scores : List (String × ℚ),
      generate_recommendations scores = scores.map (fun p => (p.1, recTierText p.2))) ∧
    (∀ s : ℚ,
      (recTierText s = maintainText ↔ 80 ≤ s) ∧
      (recTierText s = strengthenText ↔ 60 ≤ s ∧ s < 80) ∧
      (recTierText s = basicsText ↔ 40 ≤ s ∧ s < 60) ∧
      (recTierText s = urgentText ↔ s < 40)) := by
  constructor
  · intro scores
    rfl
  · intro s
    unfold recTierText maintainText strengthenText basicsText urgentText
    split_ifs with h1 h2 h3 <;>
      refine ⟨?_, ?_, ?_, ?_⟩ <;>
        constructor <;>
          intro h <;>
            first
              | (exfalso; simp_all; linarith)
              | (constructor <;> linarith)
              | linarith
              | simp_all

/-! ## Claim theorems: overall scorer monotonicity -/

/-- C7: holding the weight vector and the other four category scores
fixed, if the weight looked up for a category is non-negative then
increasing the score of that category cannot decrease the weighted overall
score computed by the loop of src/app/scoring.py lines 151-154 (missing
weight entries read as 0). -/
theorem overall_of_monotone (w : List (String × ℚ)) (s s2 : String → ℚ) (c0 : String)
    (hc0 : c0 ∈ CATEGORIES) (hw : 0 ≤ lookupD w c0 0)
    (hother : ∀ c ∈ CATEGORIES, c ≠ c0 → s c = s2 c) (hinc : s c0 ≤ s2 c0) :
    overall_of s w ≤ overall_of s2 w := by
  have key := mul_le_mul_of_nonneg_right hinc hw
  fin_cases hc0 <;>
    · simp only [overall_of, CATEGORIES, List.map_cons, List.map_nil, List.sum_cons,
        List.sum_nil]
      have e1 := hother "Governance & Policy" (by simp [CATEGORIES])
      have e2 := hother "Data Privacy & Protection" (by simp [CATEGORIES])
      have e3 := hother "Technical Controls & Monitoring" (by simp [CATEGORIES])
      have e4 := hother "Ethics & Societal Impact" (by simp [CATEGORIES])
      have e5 := hother "Organisational Readiness & Capability" (by simp [CATEGORIES])
      first
        | (rw [e2 (by decide), e3 (by decide), e4 (by decide), e5 (by decide)]; nlinarith [key])
        | (rw [e1 (by decide), e3 (by decide), e4 (by decide), e5 (by decide)]; nlinarith [key])
        | (rw [e1 (by decide), e2 (by decide), e4 (by decide), e5 (by decide)]; nlinarith [key])
        | (rw [e1 (by decide), e2 (by decide), e3 (by decide), e5 (by decide)]; nlinarith [key])
        | (rw [e1 (by decide), e2 (by decide), e3 (by decide), e4 (by decide)]; nlinarith [key])

/-- Witness for C7: a concrete weight list and two concrete score
assignments differing only on Governance & Policy. -/
theorem overall_of_monotone_witness :
    ("Governance & Policy" ∈ CATEGORIES ∧
      0 ≤ lookupD [("Governance & Policy", (1 : ℚ)/2)] "Governance & Policy" 0 ∧
      (10 : ℚ) ≤ 20) ∧
    overall_of (fun _ => 10) [("Governance & Policy", (1 : ℚ)/2)] ≤
      overall_of (fun c => if c = "Governance & Policy" then 20 else 10)
        [("Governance & Policy", (1 : ℚ)/2)] :=
  ⟨⟨by decide, by norm_num [lookupD], by norm_num⟩,
   overall_of_monotone [("Governance & Policy", (1 : ℚ)/2)] (fun _ => 10)
     (fun c => if c = "Governance & Policy" then 20 else 10) "Governance & Policy"
     (by decide) (by norm_num [lookupD])
     (fun c _ hne => by simp [hne]) (by norm_num)⟩

/-! ## Claim theorems: dependence only on catalog question ids -/

theorem catTotalOver_congr (qs : List Question) (r1 r2 : String → Option ℚ)
    (h : ∀ q ∈ qs, r1 q.id = r2 q.id) (cat : String) :
    catTotalOver qs r1 cat = catTotalOver qs r2 cat := by
  induction qs with
  | nil => rfl
  | cons q rest ih =>
      have hq := h q (List.mem_cons_self q rest)
      have hrest : ∀ q ∈ rest, r1 q.id = r2 q.id :=
        fun q hq2 => h q (List.mem_cons_of_mem _ hq2)
      simp only [catTotalOver, hq, ih hrest]

theorem catCountOver_congr (qs : List Question) (r1 r2 : String → Option ℚ)
    (h : ∀ q ∈ qs, r1 q.id = r2 q.id) (cat : String) :
    catCountOver qs r1 cat = catCountOver qs r2 cat := by
  induction qs with
  | nil => rfl
  | cons q rest ih =>
      have hq := h q (List.mem_cons_self q rest)
      have hrest : ∀ q ∈ rest, r1 q.id = r2 q.id :=
        fun q hq2 => h q (List.mem_cons_of_mem _ hq2)
      simp only [catCountOver, hq, ih hrest]

/-- C10: the scoring pipeline reads a response map only at the ids of the
11 catalog questions: two response maps that agree on those ids produce
identical `compute_scores` output (overall, category scores and band) for
the same organisation type and sector, so entries under non-catalog ids
have no effect. -/
theorem compute_scores_catalog_only
    (r1 r2 : String → Option ℚ) (ot ind : Option String)
    (h : ∀ q ∈ QUESTIONS, r1 q.id = r2 q.id) :
    compute_scores r1 ot ind = compute_scores r2 ot ind := by
  have hs : ∀ cat, category_score r1 cat = category_score r2 cat := by
    intro cat
    unfold category_score category_total category_count
    rw [catTotalOver_congr QUESTIONS r1 r2 h cat, catCountOver_congr QUESTIONS r1 r2 h cat]
  have hmap : CATEGORIES.map (fun c => (c, category_score r1 c)) =
      CATEGORIES.map (fun c => (c, category_score r2 c)) :=
    List.map_congr_left (fun c _ => by rw [hs c])
  simp only [compute_scores, hmap]

/-- Witness for C10: a response map holding an answer under the
non-catalog id "junk_key" scores identically to the empty response map. -/
theorem compute_scores_catalog_only_witness :
    (∀ q ∈ QUESTIONS,
      (fun i => if i = "junk_key" then some (5 : ℚ) else none) q.id =
        (fun _ => (none : Option ℚ)) q.id) ∧
    compute_scores (fun i => if i = "junk_key" then some (5 : ℚ) else none) none none =
      compute_scores (fun _ => (none : Option ℚ)) none none :=
  ⟨by decide,
   compute_scores_catalog_only (fun i => if i = "junk_key" then some (5 : ℚ) else none)
     (fun _ => (none : Option ℚ)) none none (by decide)⟩

/-! ## Claim theorems: response normalizer formula -/

/-- Stated from the wording of the spec for the Response Normalizer (spec
4.1): the answer values present in the ResponseSet for the questions of a
category. -/
def specAnsweredValues (r : String → Option ℚ) (cat : String) : List ℚ :=
  (QUESTIONS.filter (fun q => q.category == cat)).filterMap (fun q => r q.id)

theorem catTotalOver_eq_filterMap_sum (qs : List Question) (r : String → Option ℚ)
    (cat : String) :
    catTotalOver qs r cat =
      ((qs.filter (fun q => q.category == cat)).filterMap (fun q => r q.id)).sum := by
  induction qs with
  | nil => rfl
  | cons q rest ih =>
      by_cases hc : (q.category == cat) = true
      · cases hr : r q.id with
        | none => simp [catTotalOver, List.filter_cons, List.filterMap_cons, hc, hr, ih]
        | some v => simp [catTotalOver, List.filter_cons, List.filterMap_cons, hc, hr, ih]
      · simp [catTotalOver, List.filter_cons, hc, ih]

theorem catCountOver_eq_filterMap_length (qs : List Question) (r : String → Option ℚ)
    (cat : String) :
    catCountOver qs r cat =
      ((qs.filter (fun q => q.category == cat)).filterMap (fun q => r q.id)).length := by
  induction qs with
  | nil => rfl
  | cons q rest ih =>
      by_cases hc : (q.category == cat) = true
      · cases hr : r q.id with
        | none => simp [catCountOver, List.filter_cons, List.filterMap_cons, hc, hr, ih]
        | some v =>
            simp [catCountOver, List.filter_cons, List.filterMap_cons, hc, hr, ih]
            omega
      · simp [catCountOver, List.filter_cons, hc, ih]

theorem lookupD_category_scores (r : String → Option ℚ) (ot ind : Option String)
    (cat : String) (hcat : cat ∈ CATEGORIES) :
    lookupD (compute_scores r ot ind).category_scores cat 0 = category_score r cat := by
  fin_cases hcat <;> simp [compute_scores, CATEGORIES, lookupD]

/-- C2: for each of the five categories, the score produced by
`compute_scores` equals `((sum of answered values / count of answered
questions) / 4.0) * 100.0`, with boolean and graded answers participating
alike, and is exactly 0 when no question of the category was answered (the
embedding is total, so no error is possible). -/
theorem category_score_formula (r : String → Option ℚ) (ot ind : Option String)
    (cat : String) (hcat : cat ∈ CATEGORIES) :
    lookupD (compute_scores r ot ind).category_scores cat 0 =
      if (specAnsweredValues r cat).length = 0 then 0
      else ((specAnsweredValues r cat).sum / ((specAnsweredValues r cat).length : ℚ))
             / 4 * 100 := by
  rw [lookupD_category_scores r ot ind cat hcat]
  unfold category_score category_total category_count
  rw [catTotalOver_eq_filterMap_sum, catCountOver_eq_filterMap_length]
  unfold specAnsweredValues
  rcases Nat.eq_zero_or_pos
      ((QUESTIONS.filter (fun q => q.category == cat)).filterMap (fun q => r q.id)).length
    with hz | hp
  · simp [hz]
  · rw [if_pos hp, if_neg (by omega)]

/-- Witness for C2: a single answered Governance question. -/
theorem category_score_formula_witness :
    "Governance & Policy" ∈ CATEGORIES ∧
    lookupD
        (compute_scores (fun i => if i = "gov_policy" then some (1 : ℚ) else none)
          none none).category_scores
        "Governance & Policy" 0 =
      if (specAnsweredValues (fun i => if i = "gov_policy" then some (1 : ℚ) else none)
            "Governance & Policy").length = 0 then 0
      else ((specAnsweredValues (fun i => if i = "gov_policy" then some (1 : ℚ) else none)
              "Governance & Policy").sum /
            ((specAnsweredValues (fun i => if i = "gov_policy" then some (1 : ℚ) else none)
              "Governance & Policy").length : ℚ)) / 4 * 100 :=
  ⟨by decide,
   category_score_formula (fun i => if i = "gov_policy" then some (1 : ℚ) else none)
     none none "Governance & Policy" (by decide)⟩

/-! ## Claim theorems: normalizer range and the all-max example -/

theorem adjustedWeights_none_none :
    adjustedWeights none none = rawWeights false false false false false false false := by
  have h1 : pubFlag (toLowerStr ((none : Option String).getD "")) = false := by decide
  have h2 : suFlag (toLowerStr ((none : Option String).getD "")) = false := by decide
  have h3 : heFlag (toLowerStr ((none : Option String).getD "")) = false := by decide
  have h4 : fiFlag (toLowerStr ((none : Option String).getD "")) = false := by decide
  have h5 : reFlag (toLowerStr ((none : Option String).getD "")) = false := by decide
  have h6 : edFlag (toLowerStr ((none : Option String).getD "")) = false := by decide
  have h7 : teFlag (toLowerStr ((none : Option String).getD "")) = false := by decide
  simp only [adjustedWeights, h1, h2, h3, h4, h5, h6, h7]

theorem get_category_weights_none_none :
    get_category_weights none none =
      [ ("Governance & Policy", 3/10),
        ("Data Privacy & Protection", 1/4),
        ("Technical Controls & Monitoring", 1/5),
        ("Ethics & Societal Impact", 3/20),
        ("Organisational Readiness & Capability", 1/10) ] := by
  rw [get_category_weights_eq_div, adjustedWeights_none_none]
  norm_num [rawWeights]

/-- The ResponseSet giving every catalog question its maximal declared
value: 5 for every likert question, 1 for every yes/no question. -/
def maxResponses : String → Option ℚ := fun i =>
  if i = "gov_policy" then some 1
  else if i = "gov_owner" then some 1
  else if i = "gov_vendor" then some 5
  else if i = "dp_minimisation" then some 5
  else if i = "dp_dpia" then some 1
  else if i = "tech_versioning" then some 5
  else if i = "tech_monitoring" then some 5
  else if i = "eth_impact" then some 5
  else if i = "eth_stakeholders" then some 5
  else if i = "org_training" then some 5
  else if i = "org_roles" then some 1
  else none

theorem category_score_max_tech :
    category_score maxResponses "Technical Controls & Monitoring" = 125 := by
  simp [category_score, category_total, category_count, catTotalOver, catCountOver,
    QUESTIONS, maxResponses]
  norm_num

theorem category_score_empty (cat : String) :
    category_score (fun _ => none) cat = 0 := by
  simp [category_score, category_total, category_count, catCountOver, QUESTIONS]

/-- C1 (the code evaluated at the failing input): with every catalog
question answered at its maximal declared value (graded 5, boolean 1) and
base weights (no org-type or sector match), the Technical Controls &
Monitoring category scores 125 — outside [0,100] — and the overall score
is 87.5 rather than 100 (the band is still "AI Ready"); the empty
ResponseSet does yield all five category scores equal to 0.  The likert
scale runs 1..5 but the normaliser divides the per-question average by 4,
so in-domain answers can exceed 100. -/
theorem compute_scores_max_input_eval :
    lookupD (compute_scores maxResponses none none).category_scores
      "Technical Controls & Monitoring" 0 = 125 ∧
    (compute_scores maxResponses none none).overall = 175/2 ∧
    (compute_scores maxResponses none none).band.1 = "AI Ready" ∧
    (compute_scores (fun _ => none) none none).category_scores =
      CATEGORIES.map (fun c => (c, 0)) := by
  have hover : (compute_scores maxResponses none none).overall = 175/2 := by
    simp only [compute_scores, overall_of, get_category_weights_none_none]
    simp [CATEGORIES, lookupD, category_score, category_total, category_count,
      catTotalOver, catCountOver, QUESTIONS, maxResponses]
    norm_num
  refine ⟨?_, hover, ?_, ?_⟩
  · rw [lookupD_category_scores maxResponses none none _ (by decide)]
    exact category_score_max_tech
  · show (classify_band (compute_scores maxResponses none none).overall).1 = "AI Ready"
    rw [hover]
    norm_num [classify_band]
  · exact List.map_congr_left (fun c _ => by rw [category_score_empty c])

/-! ## Claim theorems: trend engine -/

/-- First (earlier) history record of the trend example: overall 50,
Governance category column 40. -/
def histRecord1 : HistoryRecord :=
  ⟨"2024-01-01T00:00:00", 50, [("cat_governance_&_policy", 40)]⟩

/-- Second (later) history record of the trend example: overall 65,
Governance category column 70. -/
def histRecord2 : HistoryRecord :=
  ⟨"2024-02-01T00:00:00", 65, [("cat_governance_&_policy", 70)]⟩

/-- The two-record chronologically ordered history of the trend example. -/
def hist2 : List HistoryRecord := [histRecord1, histRecord2]

/-- Evaluation of the code on the concrete two-record example: only the
Governance column is stored in the two records, so the output holds the
overall delta 65 - 50 = 15 and the single category delta 70 - 40 = 30. -/
theorem computeTrend_hist2_eval :
    computeTrend hist2 = some ⟨15, [("Governance & Policy", 30)]⟩ := by
  have h1 : catCol "Governance & Policy" = "cat_governance_&_policy" := by decide
  have h2 : catCol "Data Privacy & Protection" = "cat_data_privacy_&_protection" := by decide
  have h3 : catCol "Technical Controls & Monitoring" =
      "cat_technical_controls_&_monitoring" := by decide
  have h4 : catCol "Ethics & Societal Impact" = "cat_ethics_&_societal_impact" := by decide
  have h5 : catCol "Organisational Readiness & Capability" =
      "cat_organisational_readiness_&_capability" := by decide
  simp [computeTrend, hist2, histRecord1, histRecord2, CATEGORIES, colValue,
    h1, h2, h3, h4, h5]
  norm_num

/-- C5: on a chronologically ordered history with at least two records the
code outputs the delta of the overall scores of the two most recent
records (latest minus previous) — overalls [50, 65] give +15 — and, for
each category whose column is present (non-null) in both of those records,
the same latest-minus-previous delta (app.py lines 650-666, pdf_report.py
lines 223-257); with fewer than two records there is no trend output and,
the embedding being total, no error. -/
theorem computeTrend_spec :
    (∀ history : List HistoryRecord, history.length < 2 → computeTrend history = none) ∧
    (∀ (history : List HistoryRecord) (latest prev : HistoryRecord)
        (rest : List HistoryRecord),
      history.reverse = latest :: prev :: rest →
      ∃ out : TrendOutput, computeTrend history = some out ∧
        out.overallDelta = latest.overall - prev.overall ∧
        (∀ cat ∈ CATEGORIES, ∀ lv pv : ℚ,
          colValue latest (catCol cat) = some lv →
          colValue prev (catCol cat) = some pv →
          (cat, lv - pv) ∈ out.categoryDeltas)) ∧
    computeTrend hist2 = some ⟨15, [("Governance & Policy", 30)]⟩ ∧
    computeTrend [histRecord1] = none := by
  refine ⟨?_, ?_, computeTrend_hist2_eval, rfl⟩
  · intro history hlen
    unfold computeTrend
    cases hr : history.reverse with
    | nil => rfl
    | cons a t =>
        cases t with
        | nil => rfl
        | cons b t2 =>
            exfalso
            have : history.reverse.length = history.length := List.length_reverse _
            rw [hr] at this
            simp at this
            omega
  · intro history latest prev rest hrev
    refine ⟨⟨latest.overall - prev.overall,
      CATEGORIES.filterMap (fun cat =>
        match colValue latest (catCol cat), colValue prev (catCol cat) with
        | some lv, some pv => some (cat, lv - pv)
        | _, _ => none)⟩, ?_, rfl, ?_⟩
    · unfold computeTrend
      rw [hrev]
    · intro cat hcat lv pv hl hp
      refine List.mem_filterMap.mpr ⟨cat, hcat, ?_⟩
      rw [hl, hp]

/-- Witness for C5: the no-output branch at the empty history, and the
two-delta branch at the concrete two-record history, where the Governance
column is present in both records and its delta 70 - 40 = 30 is in the
output next to the overall delta 65 - 50 = 15. -/
theorem computeTrend_spec_witness :
    (([] : List HistoryRecord).length < 2 ∧ computeTrend [] = none) ∧
    (hist2.reverse = histRecord2 :: histRecord1 :: [] ∧
      ∃ out : TrendOutput, computeTrend hist2 = some out ∧
        out.overallDelta = histRecord2.overall - histRecord1.overall ∧
        (∀ cat ∈ CATEGORIES, ∀ lv pv : ℚ,
          colValue histRecord2 (catCol cat) = some lv →
          colValue histRecord1 (catCol cat) = some pv →
          (cat, lv - pv) ∈ out.categoryDeltas)) ∧
    computeTrend hist2 = some ⟨15, [("Governance & Policy", 30)]⟩ :=
  ⟨⟨by norm_num, computeTrend_spec.1 [] (by norm_num)⟩,
   ⟨by simp [hist2], computeTrend_spec.2.1 hist2 histRecord2 histRecord1 []
      (by simp [hist2])⟩,
   computeTrend_spec.2.2.1⟩
